import Mathlib

/-!
Shallow embedding of the Text-Guard moderation backend (`backend/main.py`).

The service is a thin HTTP gateway: `POST /moderate` strips the input text,
short-circuits on empty text and on mock mode, otherwise asks a primary LLM
provider (Groq) for a JSON-shaped score, falls back to a secondary HTTP
inference provider (Hugging Face) and finally to a synthesized default,
maps the score to an action via two thresholds, and persists blocked
decisions to MongoDB.  `GET /admin/logs` reads the persisted entries and
`GET /_debug_env` reports masked configuration.

Modelling conventions:
* Floating-point scores and thresholds are modelled as rationals (`ℚ`);
  the pipeline only compares and forwards them.
* JSON values returned by `json.loads` are modelled by `JVal`.  JSON `null`
  and the Python object `None` are identified (as they are in Python after
  `json.loads`), as constructor `JVal.null`.
* External effects (the Groq chat call, the HF inference call, `json.loads`,
  `time.time()`, the Mongo insert) are oracles collected in `World`; a call
  that raises any exception is `CallResult.exn`.
* Which optional clients exist at process start (`groq_client`,
  `mongo_client`, `HF_API_TOKEN`, `MOCK_MODE == "1"`) is a `Config`.
-/

namespace TextGuard

/-- JSON-like values as produced by Python's `json.loads`.  `null` doubles as
the Python object `None`, which is what `json.loads` actually returns for a
JSON `null`. -/
inductive JVal : Type
  | num (q : ℚ)
  | str (s : String)
  | bool (b : Bool)
  | null
  | arr (elems : List JVal)
  | obj (fields : List (String × JVal))

/-- Result of calling out to an external system: the value it returned, or
`exn` when the call raised (network error, timeout, bad status, parse error
re-raised, ...). -/
inductive CallResult (α : Type) : Type
  | ok (a : α)
  | exn
  deriving DecidableEq

/-- Key lookup in a parsed JSON object (Python `dict.__getitem__` through
`dict.get`); JSON objects have unique keys after parsing. -/
def lookupField : List (String × JVal) → String → Option JVal
  | [], _ => none
  | (k, v) :: rest, key => if k = key then some v else lookupField rest key

/-- Python `float(x)` applied to a value taken out of parsed JSON: exact for
JSON numbers and booleans, raises (`none`) on `None`, lists and dicts.
(Python `float` also parses numeric string literals; no behaviour verified
below depends on the string case, which is modelled as raising.) -/
def pyFloat : JVal → Option ℚ
  | .num q => some q
  | .bool b => some (if b then 1 else 0)
  | _ => none

/-- Python truthiness (`if parsed:`) of a JSON-derived value. -/
def JVal.truthy : JVal → Bool
  | .num q => decide (q ≠ 0)
  | .str s => decide (s ≠ "")
  | .bool b => b
  | .null => false
  | .arr es => !es.isEmpty
  | .obj fs => !fs.isEmpty

/-- Rendering of the label inside the f-string `f"llm_{label}"`.  Exact for
strings, `None` and booleans — the only shapes the pipeline ever feeds it;
numeric and container renderings abbreviate Python's repr formatting, which
no verified behaviour depends on. -/
def JVal.pyStr : JVal → String
  | .str s => s
  | .null => "None"
  | .bool b => if b then "True" else "False"
  | .num q => toString q
  | .arr _ => "[list]"
  | .obj _ => "\x7bdict\x7d"

/-- The whitespace characters stripped by Python's `str.strip()` (ASCII
range; the further Unicode space characters Python also strips are not
relevant to any verified behaviour). -/
def isPySpace (c : Char) : Bool :=
  c == ' ' || c == '\t' || c == '\n' || c == '\r' || c == Char.ofNat 11 || c == Char.ofNat 12

/-- Python `text.strip()`. -/
def pyStrip (s : String) : String :=
  String.mk (((s.toList.dropWhile isPySpace).reverse.dropWhile isPySpace).reverse)

/-- Process-level configuration: which optional clients were successfully
constructed at startup (main.py lines 41-52, 81-108). -/
structure Config where
  groqConfigured : Bool
  hfToken : Bool
  mongoConfigured : Bool
  mockMode : Bool
  blockThreshold : ℚ
  reviewThreshold : ℚ

/-- Oracle for everything outside the process: the primary (Groq) chat call
(including extraction of `llm_text` from the SDK response object), the raw
text returned by `call_hf_inference`, the behaviour of `json.loads` on each
string, the clock, and the outcome of `insert_one`. -/
structure World where
  jsonParse : String → Option JVal
  primaryText : CallResult String
  hfOut : CallResult String
  now : ℕ
  mongoInsert : CallResult Unit

/-- The moderation response body (main.py line 275 and the short-circuit
returns at lines 169 and 173). -/
structure ModResult where
  action : String
  score : ℚ
  reason : String
  matchedSeed : JVal

/-- The audit document built at main.py line 279: timestamp, raw (stripped)
text, the response fields, and `meta.provider`. -/
structure LogDoc where
  ts : ℕ
  raw : String
  action : String
  score : ℚ
  reason : String
  matchedSeed : JVal
  provider : String

/-- Observable effects of one `/moderate` request: whether the primary and
secondary providers were called, the audit document built at line 279 (if
control reached it), and the documents actually inserted into Mongo. -/
structure Effects where
  primaryCalled : Bool
  hfCalled : Bool
  logDoc : Option LogDoc
  dbWrites : List LogDoc

/-- `log_to_mongo` (main.py lines 111-125): insert the document only when a
Mongo client exists and the action is `"block"`; an insert that raises is
caught and logged, leaving nothing written.  Returns the inserted documents. -/
def logToMongo (cfg : Config) (w : World) (doc : LogDoc) : List LogDoc :=
  if cfg.mongoConfigured then
    if doc.action = "block" then
      match w.mongoInsert with
      | .ok _ => [doc]
      | .exn => []
    else []
  else []

/-- The threshold decision step (main.py lines 267-273). -/
def decideAction (blockT reviewT s : ℚ) : String :=
  if s ≥ blockT then "block"
  else if s ≥ reviewT then "review"
  else "allow"

/-- The primary (Groq) branch, main.py lines 186-230: `none` when the branch
left `score = None` (client absent, call raised, `json.loads` raised, the
parsed value is not a dict so `.get` raised, or `float()` raised); otherwise
the `(score, label, matched_seed)` triple, with `score` defaulting to `0.0`
and `label` to `"other"` when their keys are absent. -/
def primaryOutcome (cfg : Config) (w : World) : Option (ℚ × JVal × JVal) :=
  if cfg.groqConfigured then
    match w.primaryText with
    | .exn => none
    | .ok llmText =>
      match w.jsonParse llmText with
      | none => none
      | some llmJson =>
        match llmJson with
        | .obj fields =>
          match pyFloat ((lookupField fields "score").getD (.num 0)) with
          | some q =>
            some (q, (lookupField fields "label").getD (.str "other"),
                  (lookupField fields "matched_seed").getD .null)
          | none => none
        | _ => none
  else none

/-- The step after the secondary provider's raw output has been parsed
(main.py lines 246-254): extract the triple when `parsed` is truthy and the
extraction succeeds; every failure mode collapses to the synthesized default
`(0.5, "other", None)` (lines 250-254 for falsy `parsed`, the `except` at
line 255 when `.get` or `float` raises). -/
def hfFromParsed : Option JVal → ℚ × JVal × JVal
  | some j =>
    if j.truthy then
      match j with
      | .obj fields =>
        match pyFloat ((lookupField fields "score").getD (.num 0)) with
        | some q =>
          (q, (lookupField fields "label").getD (.str "other"),
           (lookupField fields "matched_seed").getD .null)
        | none => (1/2, .str "other", .null)
      | _ => (1/2, .str "other", .null)
    else (1/2, .str "other", .null)
  | none => (1/2, .str "other", .null)

/-- The secondary (Hugging Face) fallback branch, main.py lines 233-259:
if the call raised, the default; otherwise parse the raw output with
`json.loads`, retrying on the first-`{`-to-last-`}` substring (the
`re.search(r"\x7b.*\x7d", hf_out, re.DOTALL)` match) when direct parsing
fails, and hand the result to `hfFromParsed`. -/
def extractBraced (s : String) : Option String :=
  let cs := s.toList
  match cs.findIdx? (· == '{') with
  | none => none
  | some i =>
    match cs.reverse.findIdx? (· == '}') with
    | none => none
    | some rj =>
      let j := cs.length - 1 - rj
      if i < j then some (String.mk ((cs.take (j + 1)).drop i)) else none

def hfOutcome (w : World) : ℚ × JVal × JVal :=
  match w.hfOut with
  | .exn => (1/2, .str "other", .null)
  | .ok hfText =>
    hfFromParsed ((w.jsonParse hfText).orElse
      (fun _ => (extractBraced hfText).bind w.jsonParse))

/-- Tail of the `/moderate` handler once a `(score, label, matched_seed)`
triple is fixed (main.py lines 267-284): decide the action, build the
response and the audit document, and attempt the Mongo log. -/
def finishModerate (cfg : Config) (w : World) (text : String)
    (slm : ℚ × JVal × JVal) (hfTried : Bool) : ModResult × Effects :=
  let action := decideAction cfg.blockThreshold cfg.reviewThreshold slm.1
  let reason := "llm_" ++ slm.2.1.pyStr
  let doc : LogDoc :=
    { ts := w.now, raw := text, action := action, score := slm.1,
      reason := reason, matchedSeed := slm.2.2,
      provider :=
        if cfg.groqConfigured then "groq"
        else if cfg.hfToken then "hf" else "none" }
  ({ action := action, score := slm.1, reason := reason, matchedSeed := slm.2.2 },
   { primaryCalled := cfg.groqConfigured, hfCalled := hfTried,
     logDoc := some doc, dbWrites := logToMongo cfg w doc })

/-- The `POST /moderate` handler (main.py lines 165-284). -/
def moderate (cfg : Config) (w : World) (text0 : String) : ModResult × Effects :=
  let text := pyStrip text0
  if text = "" then
    ({ action := "allow", score := 0, reason := "empty_text", matchedSeed := .null },
     { primaryCalled := false, hfCalled := false, logDoc := none, dbWrites := [] })
  else if cfg.mockMode then
    ({ action := "allow", score := 0.05, reason := "mock", matchedSeed := .null },
     { primaryCalled := false, hfCalled := false, logDoc := none, dbWrites := [] })
  else
    match primaryOutcome cfg w with
    | some slm => finishModerate cfg w text slm false
    | none =>
      if cfg.hfToken then finishModerate cfg w text (hfOutcome w) true
      else finishModerate cfg w text (1/2, .str "other", .null) false

/-- `_mask_uri` (main.py lines 58-63).  Note that the `len(uri) <= keep * 2`
test selects between two identical expressions: every URI is rendered as its
first `keep` characters, `"..."`, then its last `keep` characters. -/
def maskUri (keep : ℕ) (uri : Option String) : Option String :=
  match uri with
  | none => none
  | some u =>
    if u = "" then none
    else if u.length ≤ keep * 2 then some (u.take keep ++ "..." ++ u.takeRight keep)
    else some (u.take keep ++ "..." ++ u.takeRight keep)

/-- The `GET /_debug_env` response (main.py lines 156-163). -/
structure DebugEnvResp where
  mongo_present : Bool
  mongo_masked : Option String
  groq_present : Bool
  hf_present : Bool

def debugEnv (mongoUri groqKey hfTok : Option String) : DebugEnvResp :=
  { mongo_present := mongoUri.any (fun s => s != ""),
    mongo_masked := maskUri 6 mongoUri,
    groq_present := groqKey.any (fun s => s != ""),
    hf_present := hfTok.any (fun s => s != "") }

/-- Insertion step of the model of `find().sort("ts", -1)`: place `d` before
the first element with a strictly smaller timestamp. -/
def insertByTs (d : LogDoc) : List LogDoc → List LogDoc
  | [] => [d]
  | e :: es => if e.ts ≤ d.ts then d :: e :: es else e :: insertByTs d es

/-- The stored collection sorted by timestamp, newest first (the
`sort("ts", -1)` in main.py line 292). -/
def sortByTsDesc : List LogDoc → List LogDoc
  | [] => []
  | d :: ds => insertByTs d (sortByTsDesc ds)

/-- The `GET /admin/logs` handler (main.py lines 286-300), with the stored
collection modelled as the list of documents; `HTTPException(500)` when no
Mongo client is configured is the `Except.error 500`. -/
def getAdminLogs (db : Option (List LogDoc)) (limit : ℕ) : Except ℕ (ℕ × List LogDoc) :=
  match db with
  | none => .error 500
  | some docs =>
    let items := (sortByTsDesc docs).take limit
    .ok (items.length, items)

/-- The ways the primary (Groq) branch fails to produce a score: the call
raised or timed out, `json.loads` raised on the returned text, the parsed
value is not a JSON object (so `.get` raises), or the `"score"` entry is
present but `float()` raises on it. -/
def primaryUnusable (w : World) : Prop :=
  w.primaryText = CallResult.exn ∨
  ∃ s, w.primaryText = CallResult.ok s ∧
    (w.jsonParse s = none ∨
     (∃ j, w.jsonParse s = some j ∧ ∀ fs, j ≠ JVal.obj fs) ∨
     (∃ fs v, w.jsonParse s = some (JVal.obj fs) ∧
        lookupField fs "score" = some v ∧ pyFloat v = none))

/-- A configuration with every optional client available and default
thresholds (`BLOCK_THRESHOLD = 0.80`, `REVIEW_THRESHOLD = 0.45`). -/
def cfgAll : Config :=
  { groqConfigured := true, hfToken := true, mongoConfigured := true,
    mockMode := false, blockThreshold := 0.80, reviewThreshold := 0.45 }

/-- Mock mode switched on. -/
def cfgMock : Config :=
  { groqConfigured := false, hfToken := false, mongoConfigured := false,
    mockMode := true, blockThreshold := 0.80, reviewThreshold := 0.45 }

/-- No provider configured at all, default thresholds. -/
def cfgNoProv : Config :=
  { groqConfigured := false, hfToken := false, mongoConfigured := false,
    mockMode := false, blockThreshold := 0.80, reviewThreshold := 0.45 }

/-- Groq and HF configured, no Mongo, default thresholds. -/
def cfgBoth : Config :=
  { groqConfigured := true, hfToken := true, mongoConfigured := false,
    mockMode := false, blockThreshold := 0.80, reviewThreshold := 0.45 }

/-- A world where every external call raises and nothing parses. -/
def wExn : World :=
  { jsonParse := fun _ => none, primaryText := .exn, hfOut := .exn,
    now := 0, mongoInsert := .exn }

/-- A world where the primary provider answers with the JSON text `{}`:
valid JSON, but an object with no `"score"` entry. -/
def wNoScore : World :=
  { jsonParse := fun s => if s = "\x7b\x7d" then some (.obj []) else none,
    primaryText := .ok "\x7b\x7d", hfOut := .ok "unused",
    now := 0, mongoInsert := .exn }

/-- A world where the primary call raises and the secondary returns a JSON
object carrying score 0.9. -/
def wHf : World :=
  { jsonParse := fun s =>
      if s = "\x7b\"score\": 0.9\x7d" then some (.obj [("score", .num (9/10))]) else none,
    primaryText := .exn, hfOut := .ok "\x7b\"score\": 0.9\x7d",
    now := 0, mongoInsert := .ok () }

/-! ## Theorems -/

/-- C1: for thresholds `B ≥ R` the decision step of `POST /moderate` returns
`"block"` iff `s ≥ B`, `"review"` iff `R ≤ s < B`, and `"allow"` iff `s < R`;
in particular ties at either threshold resolve to the stricter action. -/
theorem decide_action_thresholds (B R s : ℚ) (hBR : R ≤ B) :
    (decideAction B R s = "block" ↔ B ≤ s) ∧
    (decideAction B R s = "review" ↔ R ≤ s ∧ s < B) ∧
    (decideAction B R s = "allow" ↔ s < R) := by
  unfold decideAction
  split_ifs with h1 h2
  · exact ⟨⟨fun _ => h1, fun _ => rfl⟩,
      iff_of_false (by decide) (fun hc => absurd h1 (not_le.mpr hc.2)),
      iff_of_false (by decide)
        (fun hc => absurd h1 (not_le.mpr (lt_of_lt_of_le hc hBR)))⟩
  · exact ⟨iff_of_false (by decide) h1,
      iff_of_true rfl ⟨h2, not_le.mp h1⟩,
      iff_of_false (by decide) (fun hc => absurd h2 (not_le.mpr hc))⟩
  · exact ⟨iff_of_false (by decide) h1,
      iff_of_false (by decide) (fun hc => h2 hc.1),
      iff_of_true rfl (not_le.mp h2)⟩

/-- Witness for C1 at the default thresholds and the boundary score
`s = B = 0.8`. -/
theorem decide_action_thresholds_witness :
    ((9 : ℚ)/20 ≤ 4/5) ∧
    ((decideAction (4/5) (9/20) (4/5) = "block" ↔ (4 : ℚ)/5 ≤ 4/5) ∧
     (decideAction (4/5) (9/20) (4/5) = "review" ↔
        (9 : ℚ)/20 ≤ 4/5 ∧ (4 : ℚ)/5 < 4/5) ∧
     (decideAction (4/5) (9/20) (4/5) = "allow" ↔ (4 : ℚ)/5 < 9/20)) :=
  ⟨by norm_num, decide_action_thresholds (4/5) (9/20) (4/5) (by norm_num)⟩

/-- All-whitespace input strips to the empty string. -/
theorem pyStrip_eq_empty_of_all_space (t : String)
    (h : t.toList.all isPySpace = true) : pyStrip t = "" := by
  unfold pyStrip
  have h1 : t.toList.dropWhile isPySpace = [] :=
    List.dropWhile_eq_nil_iff.mpr (fun x hx => List.all_eq_true.mp h x hx)
  rw [h1]
  rfl

/-- C5: a request whose text is empty or all whitespace short-circuits:
the response is exactly `allow / 0.0 / "empty_text" / null`, no provider is
contacted, no audit document is built, nothing is written — whatever the
provider configuration. -/
theorem empty_text_short_circuit (cfg : Config) (w : World) (t : String)
    (h : t.toList.all isPySpace = true) :
    moderate cfg w t =
      ({ action := "allow", score := 0, reason := "empty_text", matchedSeed := .null },
       { primaryCalled := false, hfCalled := false, logDoc := none, dbWrites := [] }) := by
  have hs : pyStrip t = "" := pyStrip_eq_empty_of_all_space t h
  unfold moderate
  rw [hs]
  rfl

/-- Witness for C5: a single-space request in a fully configured process. -/
theorem empty_text_short_circuit_witness :
    (" ".toList.all isPySpace = true) ∧
    moderate cfgAll wExn " " =
      ({ action := "allow", score := 0, reason := "empty_text", matchedSeed := .null },
       { primaryCalled := false, hfCalled := false, logDoc := none, dbWrites := [] }) :=
  ⟨by decide, empty_text_short_circuit cfgAll wExn " " (by decide)⟩

/-- C6 counterexample: in mock mode the empty request does NOT yield the
fixed mock result — the empty-text check runs first (main.py line 168
precedes line 172), so the response is `empty_text` with score 0. -/
theorem mock_mode_empty_counterexample :
    cfgMock.mockMode = true ∧
    (moderate cfgMock wExn "").1.reason = "empty_text" ∧
    (moderate cfgMock wExn "").1.score = 0 ∧
    (moderate cfgMock wExn "").1.reason ≠ "mock" := by
  refine ⟨rfl, rfl, rfl, ?_⟩
  intro hc
  exact absurd hc (by decide)

/-- C6 amended: when mock mode is enabled, every request whose text is
non-empty after stripping yields the fixed result
`allow / 0.05 / "mock"` with no provider call and no database write. -/
theorem mock_mode_fixed (cfg : Config) (w : World) (t : String)
    (hm : cfg.mockMode = true) (h : pyStrip t ≠ "") :
    moderate cfg w t =
      ({ action := "allow", score := 0.05, reason := "mock", matchedSeed := .null },
       { primaryCalled := false, hfCalled := false, logDoc := none, dbWrites := [] }) := by
  unfold moderate
  rw [if_neg h, if_pos hm]

/-- Witness for C6 (amended) on the text `"hi"`. -/
theorem mock_mode_fixed_witness :
    cfgMock.mockMode = true ∧ pyStrip "hi" ≠ "" ∧
    moderate cfgMock wExn "hi" =
      ({ action := "allow", score := 0.05, reason := "mock", matchedSeed := .null },
       { primaryCalled := false, hfCalled := false, logDoc := none, dbWrites := [] }) :=
  ⟨rfl, by decide, mock_mode_fixed cfgMock wExn "hi" rfl (by decide)⟩

/-- The tail of the pipeline writes exactly one audit document when the
decided action is `"block"`, a Mongo client exists and the insert succeeds,
and none otherwise. -/
theorem finish_writes (cfg : Config) (w : World) (text : String)
    (slm : ℚ × JVal × JVal) (b : Bool) :
    (finishModerate cfg w text slm b).2.dbWrites.length =
      (if (finishModerate cfg w text slm b).1.action = "block" ∧
          cfg.mongoConfigured = true ∧ w.mongoInsert = CallResult.ok () then 1 else 0) := by
  unfold finishModerate logToMongo
  cases hw : w.mongoInsert with
  | ok u =>
    cases u
    by_cases hm : cfg.mongoConfigured = true <;>
      by_cases ha : decideAction cfg.blockThreshold cfg.reviewThreshold slm.1 = "block" <;>
      simp [hm, ha]
  | exn =>
    by_cases hm : cfg.mongoConfigured = true <;>
      by_cases ha : decideAction cfg.blockThreshold cfg.reviewThreshold slm.1 = "block" <;>
      simp [hm, ha]

/-- C2: across the whole `/moderate` pipeline, an audit insert happens
exactly when the computed action is `"block"`, a Mongo client is configured
and the insert call succeeds (is reachable); every `allow`/`review`
decision, and every early return, writes nothing, and a `block` decision
with a working database writes exactly one document. -/
theorem audit_write_iff_block (cfg : Config) (w : World) (t : String) :
    (moderate cfg w t).2.dbWrites.length =
      (if (moderate cfg w t).1.action = "block" ∧
          cfg.mongoConfigured = true ∧ w.mongoInsert = CallResult.ok () then 1 else 0) := by
  unfold moderate
  by_cases h1 : pyStrip t = ""
  · rw [if_pos h1, if_neg (fun hc => absurd hc.1 (by decide))]
    rfl
  · rw [if_neg h1]
    by_cases h2 : cfg.mockMode = true
    · rw [if_pos h2, if_neg (fun hc => absurd hc.1 (by decide))]
      rfl
    · rw [if_neg h2]
      cases hp : primaryOutcome cfg w with
      | some slm => exact finish_writes cfg w (pyStrip t) slm false
      | none =>
        by_cases h3 : cfg.hfToken = true
        · rw [if_pos h3]
          exact finish_writes cfg w (pyStrip t) (hfOutcome w) true
        · rw [if_neg h3]
          exact finish_writes cfg w (pyStrip t) (1/2, .str "other", .null) false

/-- C4: a non-empty, non-mock request for which the primary branch produced
no score and no secondary token is configured still returns a well-formed
result with score 0.5, which under the default thresholds (0.80 / 0.45) is
the `review` action; `moderate` is total, so nothing is raised to the
caller. -/
theorem pipeline_default_review (cfg : Config) (w : World) (t : String)
    (h1 : pyStrip t ≠ "") (h2 : cfg.mockMode = false)
    (h3 : primaryOutcome cfg w = none) (h4 : cfg.hfToken = false)
    (hB : cfg.blockThreshold = 0.80) (hR : cfg.reviewThreshold = 0.45) :
    (moderate cfg w t).1 =
      { action := "review", score := 1/2, reason := "llm_other",
        matchedSeed := JVal.null } := by
  have hact : decideAction cfg.blockThreshold cfg.reviewThreshold (1/2) = "review" := by
    unfold decideAction
    rw [hB, hR, if_neg (by norm_num), if_pos (by norm_num)]
  have hmock : ¬(cfg.mockMode = true) := by rw [h2]; exact Bool.false_ne_true
  have hhf : ¬(cfg.hfToken = true) := by rw [h4]; exact Bool.false_ne_true
  unfold moderate
  rw [if_neg h1, if_neg hmock, h3]
  dsimp only
  rw [if_neg hhf]
  unfold finishModerate
  dsimp only
  rw [hact]
  rfl

/-- Witness for C4: no provider configured at all, default thresholds. -/
theorem pipeline_default_review_witness :
    pyStrip "hi" ≠ "" ∧ cfgNoProv.mockMode = false ∧
    primaryOutcome cfgNoProv wExn = none ∧ cfgNoProv.hfToken = false ∧
    cfgNoProv.blockThreshold = 0.80 ∧ cfgNoProv.reviewThreshold = 0.45 ∧
    (moderate cfgNoProv wExn "hi").1 =
      { action := "review", score := 1/2, reason := "llm_other",
        matchedSeed := JVal.null } :=
  ⟨by decide, rfl, rfl, rfl, rfl, rfl,
   pipeline_default_review cfgNoProv wExn "hi" (by decide) rfl rfl rfl rfl rfl⟩

/-- Any of the primary failure modes leaves the branch without a score. -/
theorem primaryOutcome_eq_none_of_unusable (cfg : Config) (w : World)
    (h : primaryUnusable w) : primaryOutcome cfg w = none := by
  unfold primaryOutcome
  by_cases hg : cfg.groqConfigured = true
  · rw [if_pos hg]
    rcases h with hexn | ⟨s, hs, hcase⟩
    · rw [hexn]
    · rw [hs]
      dsimp only
      rcases hcase with hp | ⟨j, hj, hobj⟩ | ⟨fs, v, hj, hv, hf⟩
      · rw [hp]
      · rw [hj]
        cases j with
        | obj fs => exact absurd rfl (hobj fs)
        | num q => rfl
        | str s => rfl
        | bool b => rfl
        | null => rfl
        | arr es => rfl
      · rw [hj]
        dsimp only
        rw [hv]
        dsimp only [Option.getD]
        rw [hf]
  · rw [if_neg hg]

/-- C3 counterexample: the primary provider answers with the parseable JSON
text `{}` — an object containing no score at all.  The claim calls such a
payload unusable and requires a fallthrough to the secondary provider, but
the code defaults the missing `"score"` key to `0.0` (main.py line 218) and
answers from the primary payload: although an HF token is configured, the
secondary is never called and the response is `allow` with score 0. -/
theorem groq_scoreless_json_counterexample :
    cfgBoth.hfToken = true ∧
    wNoScore.primaryText = CallResult.ok "\x7b\x7d" ∧
    wNoScore.jsonParse "\x7b\x7d" = some (JVal.obj []) ∧
    lookupField [] "score" = none ∧
    (moderate cfgBoth wNoScore "hello").2.hfCalled = false ∧
    (moderate cfgBoth wNoScore "hello").1 =
      { action := "allow", score := 0, reason := "llm_other",
        matchedSeed := JVal.null } := by
  have hmod : moderate cfgBoth wNoScore "hello" =
      finishModerate cfgBoth wNoScore "hello" (0, JVal.str "other", JVal.null) false := rfl
  have hact : decideAction cfgBoth.blockThreshold cfgBoth.reviewThreshold 0 = "allow" := by
    show decideAction 0.80 0.45 0 = "allow"
    unfold decideAction
    rw [if_neg (by norm_num), if_neg (by norm_num)]
  refine ⟨rfl, rfl, rfl, rfl, rfl, ?_⟩
  rw [hmod]
  unfold finishModerate
  dsimp only
  rw [hact]
  rfl

/-- C3 amended: the primary provider is treated as failed — nothing raised
to the caller, control falling through to the secondary/fallback path —
whenever the call throws or times out, the returned text cannot be parsed
as JSON, the parsed value is not a JSON object, or its `"score"` entry
cannot be converted to a number.  (A parsed JSON object merely lacking a
`"score"` key is NOT treated as failed: the key defaults to `0.0` and the
result comes from the primary payload — see the counterexample.) -/
theorem primary_failure_falls_through (cfg : Config) (w : World) (t : String)
    (h1 : pyStrip t ≠ "") (h2 : cfg.mockMode = false) (h3 : primaryUnusable w) :
    primaryOutcome cfg w = none ∧
    moderate cfg w t =
      (if cfg.hfToken then finishModerate cfg w (pyStrip t) (hfOutcome w) true
       else finishModerate cfg w (pyStrip t) (1/2, JVal.str "other", JVal.null) false) ∧
    (moderate cfg w t).2.hfCalled = cfg.hfToken := by
  have hp := primaryOutcome_eq_none_of_unusable cfg w h3
  have hmock : ¬(cfg.mockMode = true) := by rw [h2]; exact Bool.false_ne_true
  have hmod : moderate cfg w t =
      (if cfg.hfToken then finishModerate cfg w (pyStrip t) (hfOutcome w) true
       else finishModerate cfg w (pyStrip t) (1/2, JVal.str "other", JVal.null) false) := by
    unfold moderate
    rw [if_neg h1, if_neg hmock, hp]
  refine ⟨hp, hmod, ?_⟩
  rw [hmod]
  cases hb : cfg.hfToken with
  | true => rfl
  | false => rfl

/-- Witness for C3 (amended): the primary call raises, both providers
configured. -/
theorem primary_failure_falls_through_witness :
    pyStrip "hi" ≠ "" ∧ cfgBoth.mockMode = false ∧ primaryUnusable wExn ∧
    (primaryOutcome cfgBoth wExn = none ∧
     moderate cfgBoth wExn "hi" =
       (if cfgBoth.hfToken then
          finishModerate cfgBoth wExn (pyStrip "hi") (hfOutcome wExn) true
        else
          finishModerate cfgBoth wExn (pyStrip "hi")
            (1/2, JVal.str "other", JVal.null) false) ∧
     (moderate cfgBoth wExn "hi").2.hfCalled = cfgBoth.hfToken) :=
  ⟨by decide, rfl, Or.inl rfl,
   primary_failure_falls_through cfgBoth wExn "hi" (by decide) rfl (Or.inl rfl)⟩

/-- C7: the secondary fallback parses the raw response text as JSON,
retrying on the first-`{`-to-last-`}` substring when direct parsing fails,
and synthesizes `score = 0.5, label = "other", matched_seed = null` when
the call raises or no JSON value is obtained either way. -/
theorem hf_fallback_spec (w : World) :
    ((w.hfOut = CallResult.exn ∨
      ∃ s, w.hfOut = CallResult.ok s ∧ w.jsonParse s = none ∧
        (extractBraced s).bind w.jsonParse = none) →
      hfOutcome w = (1/2, JVal.str "other", JVal.null)) ∧
    (∀ s j, w.hfOut = CallResult.ok s → w.jsonParse s = some j →
      hfOutcome w = hfFromParsed (some j)) ∧
    (∀ s sub j, w.hfOut = CallResult.ok s → w.jsonParse s = none →
      extractBraced s = some sub → w.jsonParse sub = some j →
      hfOutcome w = hfFromParsed (some j)) := by
  refine ⟨?_, ?_, ?_⟩
  · rintro (hexn | ⟨s, hs, hp, hb⟩)
    · unfold hfOutcome
      rw [hexn]
    · unfold hfOutcome
      rw [hs]
      dsimp only
      rw [hp]
      dsimp only [Option.orElse]
      rw [hb]
      rfl
  · intro s j hs hp
    unfold hfOutcome
    rw [hs]
    dsimp only
    rw [hp]
    rfl
  · intro s sub j hs hp hb hj
    unfold hfOutcome
    rw [hs]
    dsimp only
    rw [hp]
    dsimp only [Option.orElse]
    rw [hb]
    dsimp only [Option.bind]
    rw [hj]

/-- Witness for C7: the secondary call raises. -/
theorem hf_fallback_spec_witness :
    hfOutcome wExn = (1/2, JVal.str "other", JVal.null) :=
  (hf_fallback_spec wExn).1 (Or.inl rfl)

/-- Inserting into the sorted list permutes consing. -/
theorem insertByTs_perm (d : LogDoc) (l : List LogDoc) :
    List.Perm (insertByTs d l) (d :: l) := by
  induction l with
  | nil => exact List.Perm.refl _
  | cons e es ih =>
    unfold insertByTs
    by_cases h : e.ts ≤ d.ts
    · rw [if_pos h]
    · rw [if_neg h]
      exact (List.Perm.cons e ih).trans (List.Perm.swap d e es)

/-- Inserting preserves descending-timestamp sortedness. -/
theorem insertByTs_sorted (d : LogDoc) (l : List LogDoc)
    (h : List.Sorted (fun a b => b.ts ≤ a.ts) l) :
    List.Sorted (fun a b => b.ts ≤ a.ts) (insertByTs d l) := by
  induction l with
  | nil => simp [insertByTs]
  | cons e es ih =>
    rcases List.sorted_cons.mp h with ⟨he, hes⟩
    unfold insertByTs
    by_cases hle : e.ts ≤ d.ts
    · rw [if_pos hle]
      refine List.sorted_cons.mpr ⟨?_, h⟩
      intro x hx
      rcases List.mem_cons.mp hx with rfl | hx'
      · exact hle
      · exact le_trans (he x hx') hle
    · rw [if_neg hle]
      refine List.sorted_cons.mpr ⟨?_, ih hes⟩
      intro x hx
      rcases List.mem_cons.mp ((insertByTs_perm d es).mem_iff.mp hx) with rfl | hx'
      · exact le_of_not_le hle
      · exact he x hx'

/-- The modelled Mongo sort is a permutation of the stored collection. -/
theorem sortByTsDesc_perm (l : List LogDoc) : List.Perm (sortByTsDesc l) l := by
  induction l with
  | nil => exact List.Perm.refl _
  | cons d ds ih =>
    exact (insertByTs_perm d (sortByTsDesc ds)).trans (List.Perm.cons d ih)

/-- The modelled Mongo sort is sorted by descending timestamp. -/
theorem sortByTsDesc_sorted (l : List LogDoc) :
    List.Sorted (fun a b => b.ts ≤ a.ts) (sortByTsDesc l) := by
  induction l with
  | nil => exact List.sorted_nil
  | cons d ds ih => exact insertByTs_sorted d (sortByTsDesc ds) ih

/-- C8: `GET /admin/logs` answers HTTP 500 when no Mongo client is
configured (an explicit error, the handler being total), and otherwise
returns the stored entries sorted by timestamp descending and truncated to
the requested limit: the returned list is a cut of a permutation of the
store, is sorted newest-first, and has length at most the limit. -/
theorem admin_logs_spec (docs : List LogDoc) (limit : ℕ) :
    getAdminLogs none limit = Except.error 500 ∧
    getAdminLogs (some docs) limit =
      Except.ok (((sortByTsDesc docs).take limit).length,
                 (sortByTsDesc docs).take limit) ∧
    List.Perm (sortByTsDesc docs) docs ∧
    List.Sorted (fun a b => b.ts ≤ a.ts) ((sortByTsDesc docs).take limit) ∧
    ((sortByTsDesc docs).take limit).length ≤ limit :=
  ⟨rfl, rfl, sortByTsDesc_perm docs,
   List.Pairwise.sublist (List.take_sublist limit (sortByTsDesc docs))
     (sortByTsDesc_sorted docs),
   List.length_take_le limit (sortByTsDesc docs)⟩

/-- C9 (code-bug evidence): for the 6-character URI `"secret"` the debug
endpoint's "masked" URI is `"secret...secret"` — the full raw URI occurs
verbatim (twice), because both branches of `_mask_uri`'s length test return
`uri[:6] + "..." + uri[-6:]`, which for short URIs is the whole secret. -/
theorem debug_env_reveals_short_uri :
    (debugEnv (some "secret") none none).mongo_masked =
      some ("secret" ++ "..." ++ "secret") ∧
    (debugEnv (some "secret") none none).mongo_masked = some "secret...secret" ∧
    "secret...secret".toList.take 6 = "secret".toList := by
  refine ⟨?_, ?_, ?_⟩ <;> rfl

/-- C10: for a non-empty, non-mock request the `meta.provider` recorded in
the audit document depends only on the configuration — `"groq"` when a
primary client exists, else `"hf"` when a secondary token is set, else
`"none"` — and not on which provider actually produced the score (the
right-hand side does not mention the world `w`). -/
theorem provider_field_config_only (cfg : Config) (w : World) (t : String)
    (h1 : pyStrip t ≠ "") (h2 : cfg.mockMode = false) :
    (moderate cfg w t).2.logDoc.map LogDoc.provider =
      some (if cfg.groqConfigured then "groq"
            else if cfg.hfToken then "hf" else "none") := by
  have hmock : ¬(cfg.mockMode = true) := by rw [h2]; exact Bool.false_ne_true
  unfold moderate
  rw [if_neg h1, if_neg hmock]
  cases hp : primaryOutcome cfg w with
  | some slm => rfl
  | none =>
    by_cases h3 : cfg.hfToken = true
    · rw [if_pos h3]
      rfl
    · rw [if_neg h3]
      rfl

/-- Witness for C10, at the claim's own example: the primary client exists
but its call raises, the secondary supplies the score 0.9 — the audit
document still records provider `"groq"`. -/
theorem provider_field_config_only_witness :
    pyStrip "hello" ≠ "" ∧ cfgBoth.mockMode = false ∧
    (moderate cfgBoth wHf "hello").1.score = 9/10 ∧
    (moderate cfgBoth wHf "hello").2.hfCalled = true ∧
    (moderate cfgBoth wHf "hello").2.logDoc.map LogDoc.provider =
      some (if cfgBoth.groqConfigured then "groq"
            else if cfgBoth.hfToken then "hf" else "none") ∧
    (if cfgBoth.groqConfigured then "groq"
     else if cfgBoth.hfToken then "hf" else "none") = "groq" :=
  ⟨by decide, rfl, rfl, rfl,
   provider_field_config_only cfgBoth wHf "hello" (by decide) rfl, rfl⟩

end TextGuard
